import Mathlib

/-!
# Verification of the "Pulse of the Unseen" audio-reactive visualization

Shallow embedding of the repository's audio analysis, mood-to-motion
mapping, per-shape animators and the `POST /api/pulse` route, over exact
rational arithmetic (`ℚ` stands for the JavaScript numbers; every literal
threshold of the source is an exact rational).  The browser's `Math.sin`,
`Math.cos` and `Math.sqrt` are abstracted as function parameters; where a
bound is needed we assume only `|sin x| ≤ 1`, the property the source
relies on.
-/

namespace Pulse

/-- The five-way sound classification of `src/app/page.tsx` (`AudioData.soundType`). -/
inductive SoundType where
  | sharp
  | rhythmic
  | chaotic
  | ambient
  | sorrowful
deriving DecidableEq, Repr

/-- The classifier branch of `analyzeAudio` in `src/app/page.tsx`
(lines 344–355): an if/else-if chain over the four numeric features. -/
def classifySound (intensity lowFreqEnergy highFreqEnergy rhythmScore : ℚ) : SoundType :=
  if highFreqEnergy > 7/10 ∧ intensity > 1/2 then .sharp
  else if rhythmScore > 3/5 then .rhythmic
  else if intensity > 4/5 ∧ highFreqEnergy > 1/2 ∧ lowFreqEnergy > 1/2 then .chaotic
  else if lowFreqEnergy > 3/5 ∧ intensity < 2/5 then .sorrowful
  else .ambient

/-- The peak-counting loop of `detectRhythm` in `src/app/page.tsx`
(lines 388–393): walking the history with a three-element window,
counting middle elements strictly above both neighbours and above `0.5`. -/
def countPeaksAux : List ℚ → ℕ
  | a :: b :: c :: rest =>
      (if b > a ∧ b > c ∧ b > 1/2 then 1 else 0) + countPeaksAux (b :: c :: rest)
  | _ => 0

/-- `detectRhythm` of `src/app/page.tsx` (lines 386–395): zero for
histories shorter than 10, otherwise the peak count divided by half the
history length. -/
def detectRhythm (history : List ℚ) : ℚ :=
  if history.length < 10 then 0
  else (countPeaksAux history : ℚ) / ((history.length : ℚ) / 2)

/-- Spec-side peak count: the number of interior elements of the list that
are strictly greater than both neighbours and greater than `1/2`, the
triples `(l[i-1], l[i], l[i+1])` being enumerated by zipping the list with
its two shifts. -/
def specPeakCount (l : List ℚ) : ℕ :=
  (l.zip (l.tail.zip l.tail.tail)).countP
    fun t => decide (t.1 < t.2.1 ∧ t.2.2 < t.2.1 ∧ 1/2 < t.2.1)

/-- `intensity` of `analyzeAudio` in `src/app/page.tsx` (lines 331–332):
mean of the frequency-bin magnitudes, normalized by 255.  (For an empty
bin array the rational convention `x / 0 = 0` applies.) -/
def intensityOf (bins : List ℕ) : ℚ :=
  ((bins.sum : ℚ) / (bins.length : ℚ)) / 255

/-- `lowFreqEnergy` of `analyzeAudio` (line 335): sum of the first 10
bins divided by `10 * 255`. -/
def lowFreqEnergyOf (bins : List ℕ) : ℚ :=
  ((bins.take 10).sum : ℚ) / (10 * 255)

/-- `highFreqEnergy` of `analyzeAudio` (line 336): sum of the last 10
bins (`slice(-10)`, the whole array when shorter) divided by `10 * 255`. -/
def highFreqEnergyOf (bins : List ℕ) : ℚ :=
  ((bins.drop (bins.length - 10)).sum : ℚ) / (10 * 255)

/-!
## The `POST /api/pulse` route (`src/app/api/pulse/route.ts`)

The handler is modelled as a total function of three inputs: the outcome
of parsing the request body, the optional `XAI_API_KEY` environment
value, and an oracle for the upstream chat-completion call.  `none` as
the overall result models an exception escaping the handler (nothing in
the handler catches it); `some r` models a returned JSON response.
-/

/-- The value found at the `description` field after destructuring the
parsed body: a string, or some non-string JSON value. -/
inductive DescVal where
  | str (s : String)
  | nonString
deriving DecidableEq, Repr

/-- Outcome of `await request.json()` followed by the destructuring
`const { description } = …` (route.ts line 4).  `throws` covers a body
that is not well-formed JSON (the promise rejects) as well as JSON
`null` (destructuring `null` throws a `TypeError`); both happen outside
any `try`.  `fields d` covers every other JSON value, `d` being its
`description` property (absent on non-objects and on objects without
the field). -/
inductive ParseOutcome where
  | throws
  | fields (d : Option DescVal)
deriving DecidableEq, Repr

/-- Behaviour of the upstream `fetch` to the chat-completion API:
the fetch itself rejecting, a non-ok HTTP response, an ok response whose
JSON lacks `choices[0].message.content`, or an ok response carrying a
content string. -/
inductive Upstream where
  | fetchReject (msg : String)
  | httpError (status : ℕ) (statusText bodyText : String)
  | badFormat
  | content (s : String)
deriving DecidableEq, Repr

/-- A JSON response produced by `NextResponse.json` in the route:
HTTP status plus the body fields. -/
structure RouteResponse where
  status : ℕ
  phrase : String
  color : String
  pulseRate : ℚ
  error : Option String
deriving DecidableEq, Repr

/-- JavaScript's `String.prototype.trim` (route.ts line 67), modelled on
the character list: whitespace stripped from both ends. -/
def trimChars (l : List Char) : List Char :=
  ((l.dropWhile Char.isWhitespace).reverse.dropWhile Char.isWhitespace).reverse

/-- `trim` lifted to `String`. -/
def trimStr (s : String) : String := ⟨trimChars s.data⟩

/-- The validation of route.ts line 7: `!description || typeof
description !== 'string'`.  Only a non-empty string passes. -/
def validDesc : Option DescVal → Option String
  | some (.str s) => if s = "" then none else some s
  | some .nonString => none
  | none => none

/-- The `POST` handler of `src/app/api/pulse/route.ts`, lines 3–87.
`none` means the handler threw (body parsing happens before the `try`);
otherwise the 400 / key-missing 500 / upstream branches follow the
source order. -/
def postPulse (body : ParseOutcome) (apiKey : Option String) (up : Upstream) :
    Option RouteResponse :=
  match body with
  | .throws => none
  | .fields d =>
    match validDesc d with
    | none => some ⟨400, "Invalid input provided", "#ff0000", 1/2,
        some "Description must be a non-empty string"⟩
    | some s =>
      match apiKey with
      | none => some ⟨500, "Fallback: Echoes of " ++ s, "#ff0000", 1/2,
          some "XAI_API_KEY is not set"⟩
      | some _ =>
        match up with
        | .content c => some ⟨200, trimStr c, "#4a90e2", 1/2, none⟩
        | .fetchReject m => some ⟨500, "Fallback: Echoes of " ++ s, "#ff0000", 1/2, some m⟩
        | .httpError st stx bodyText => some ⟨500, "Fallback: Echoes of " ++ s, "#ff0000", 1/2,
            some ("xAI API request failed: " ++ toString st ++ " " ++ stx ++ " - " ++ bodyText)⟩
        | .badFormat => some ⟨500, "Fallback: Echoes of " ++ s, "#ff0000", 1/2,
            some "Invalid response format from xAI API"⟩

/-!
## The visualization animators (`src/app/page.tsx`, lines 139–262)

Geometry is a list of rational 3-vectors.  `Math.sin`, `Math.cos`,
`Math.sqrt` and `Math.PI` are abstracted as parameters `sinF`, `cosF`,
`sqrtF`, `piC`; bounds assume only `|sinF x| ≤ 1` and `|cosF x| ≤ 1`,
the properties the source relies on. -/

structure Vec3 where
  x : ℚ
  y : ℚ
  z : ℚ
deriving DecidableEq, Repr

/-- The `AudioData` record of `src/app/page.tsx` (lines 8–14). -/
structure AudioData where
  intensity : ℚ
  soundType : SoundType
  highFreqEnergy : ℚ
  lowFreqEnergy : ℚ
  rhythmScore : ℚ
deriving DecidableEq, Repr

/-- The record returned by `grokShapeControl` in `src/app/page.tsx`. -/
structure Control where
  ribbonSpeed : ℚ
  dotSwarm : ℚ
  webPulse : ℚ
  liquidFlow : ℚ
  baseColor : ℕ
deriving DecidableEq, Repr

/-- `grokShapeControl` of `src/app/page.tsx` (lines 147–198): the
mood-to-motion table.  (The `default` arm of the source switch is
unreachable: `soundType` is the five-way union type.) -/
def grokShapeControl (intensity rhythmScore : ℚ) : SoundType → Control
  | .ambient => ⟨2*intensity, 1/10*intensity, 1/2*intensity, 1/5*intensity, 0x0000ff⟩
  | .rhythmic => ⟨1*intensity, 3/10*rhythmScore, 1*rhythmScore, 1/10*intensity, 0x00ff00⟩
  | .sharp => ⟨3*intensity, 1/2*intensity, 2*intensity, 1/20*intensity, 0xff0000⟩
  | .chaotic => ⟨4*intensity, 1*intensity, 3*intensity, 3/10*intensity, 0xff00ff⟩
  | .sorrowful => ⟨1/2*intensity, 1/20*intensity, 1/5*intensity, 1/10*intensity, 0x000088⟩

/-- `THREE.MathUtils.clamp(value, lo, hi) = Math.max(lo, Math.min(hi, value))`. -/
def clampQ (v lo hi : ℚ) : ℚ := max lo (min hi v)

/-- Ribbon animation (lines 203–213): for point `j` of `n`,
`offset = (j/n)·π`; `y` and `z` are set to
`sin/cos(offset + t·ribbonSpeed) · 2`, `x` unchanged. -/
def ribbonUpdateAux (sinF cosF : ℚ → ℚ) (piC t speed : ℚ) (n : ℕ) :
    ℕ → List Vec3 → List Vec3
  | _, [] => []
  | j, p :: rest =>
      ⟨p.x, sinF (((j : ℚ) / (n : ℚ)) * piC + t * speed) * 2,
        cosF (((j : ℚ) / (n : ℚ)) * piC + t * speed) * 2⟩
        :: ribbonUpdateAux sinF cosF piC t speed n (j+1) rest

/-- One frame of the ribbon animator over the whole point list. -/
def ribbonUpdate (sinF cosF : ℚ → ℚ) (piC t speed : ℚ) (pts : List Vec3) : List Vec3 :=
  ribbonUpdateAux sinF cosF piC t speed pts.length 0 pts

/-- Dot animation (lines 216–229): each coordinate moves by a
`sin/cos(t + i) · dotSwarm` offset and is then clamped into `[-5, 5]`. -/
def dotUpdateAux (sinF cosF : ℚ → ℚ) (t swarm : ℚ) : ℕ → List Vec3 → List Vec3
  | _, [] => []
  | i, p :: rest =>
      ⟨clampQ (p.x + sinF (t + (i : ℚ)) * swarm) (-5) 5,
        clampQ (p.y + cosF (t + (i : ℚ)) * swarm) (-5) 5,
        clampQ (p.z + sinF (t + (i : ℚ)) * swarm) (-5) 5⟩
        :: dotUpdateAux sinF cosF t swarm (i+1) rest

/-- One frame of the dot animator over the whole point list. -/
def dotUpdate (sinF cosF : ℚ → ℚ) (t swarm : ℚ) (pts : List Vec3) : List Vec3 :=
  dotUpdateAux sinF cosF t swarm 0 pts

/-- Web animation (lines 232–243): vertex `i` gets
`z := z + sin(t·webPulse + i) · 0.5` — the read `z` is the current one,
so the offset accumulates across frames, with no clamping. -/
def webUpdateAux (sinF : ℚ → ℚ) (t pulse : ℚ) : ℕ → List Vec3 → List Vec3
  | _, [] => []
  | i, p :: rest =>
      ⟨p.x, p.y, p.z + sinF (t * pulse + (i : ℚ)) * (1/2)⟩
        :: webUpdateAux sinF t pulse (i+1) rest

/-- One frame of the web animator over the whole vertex list. -/
def webUpdate (sinF : ℚ → ℚ) (t pulse : ℚ) (pts : List Vec3) : List Vec3 :=
  webUpdateAux sinF t pulse 0 pts

/-- Liquid animation (lines 246–258): plane vertex `(x, y)` gets
`z := sin(dist·5 − t·liquidFlow) · intensity` with
`dist = sqrt(x² + y²)`. -/
def liquidUpdate (sinF sqrtF : ℚ → ℚ) (t flow intensity : ℚ) (pts : List Vec3) : List Vec3 :=
  pts.map fun p => ⟨p.x, p.y, sinF (sqrtF (p.x^2 + p.y^2) * 5 - t * flow) * intensity⟩

/-- Mutable state touched by the render loop: elapsed time, the four
geometries and their material colors. -/
structure VisState where
  time : ℚ
  ribbonPos : List (List Vec3)
  ribbonColor : ℕ
  dotPos : List Vec3
  dotColor : ℕ
  webPos : List Vec3
  webColor : ℕ
  liquidPos : List Vec3
  liquidColor : ℕ
deriving DecidableEq, Repr

/-- One pass of `animate` (lines 139–262): time advances by `0.05`; if
`audioData && audioData.intensity > 0` the four shapes are mutated with
the mapped control parameters, otherwise nothing else changes; the
returned boolean records that `renderer.render` runs unconditionally at
the end. -/
def frame (sinF cosF sqrtF : ℚ → ℚ) (piC : ℚ) (audioData : Option AudioData)
    (st : VisState) : VisState × Bool :=
  let t := st.time + 5/100
  match audioData with
  | some ad =>
      if 0 < ad.intensity then
        let ctl := grokShapeControl ad.intensity ad.rhythmScore ad.soundType
        (⟨t, st.ribbonPos.map (ribbonUpdate sinF cosF piC t ctl.ribbonSpeed),
          ctl.baseColor,
          dotUpdate sinF cosF t ctl.dotSwarm st.dotPos, ctl.baseColor,
          webUpdate sinF t ctl.webPulse st.webPos, ctl.baseColor,
          liquidUpdate sinF sqrtF t ctl.liquidFlow ad.intensity st.liquidPos,
          ctl.baseColor⟩, true)
      else ({ st with time := t }, true)
  | none => ({ st with time := t }, true)

/-- `n` successive animation frames. -/
def frameIter (sinF cosF sqrtF : ℚ → ℚ) (piC : ℚ) (audioData : Option AudioData) :
    ℕ → VisState → VisState
  | 0, st => st
  | n+1, st => frameIter sinF cosF sqrtF piC audioData n
      (frame sinF cosF sqrtF piC audioData st).1

/-- The constant-one oscillator: an admissible stand-in for the sine
(all its values lie in `[-1, 1]`); the real sine takes comparable
positive values at the arguments the web animator uses. -/
def oneF : ℚ → ℚ := fun _ => 1

/-- A concrete active audio sample: full intensity, ambient mood. -/
def adC : AudioData := ⟨1, .ambient, 0, 0, 0⟩

/-- A concrete state whose web has one vertex at the origin. -/
def stC : VisState := ⟨0, [], 0, [], 0, [⟨0, 0, 0⟩], 0, [], 0⟩

/-- A concrete state used to witness the inactive-frame claim. -/
def stW : VisState := ⟨0, [[⟨1, 2, 3⟩]], 7, [⟨1, 1, 1⟩], 7, [⟨0, 0, 2⟩], 7, [⟨2, 2, 0⟩], 7⟩

/-!
## The enhanced mood-to-motion mapper of `src/unnamed/part_001`

`grokShapeControl(soundType, phrase)` (part_001 lines 289–337) builds a
base record, overrides it per mood, then — when a phrase is given —
adjusts it by the phrase's sentiment score and keyword checks.  The
external `sentiment` library's score is abstracted as an integer
parameter, and each `includes(…)` keyword test (`ethereal`/`spirit`,
`dark`/`shadow`, `echo`/`resonance`) as a boolean parameter. -/

/-- The control record of part_001, with `glowIntensity`. -/
structure ControlG where
  ribbonSpeed : ℚ
  dotSwarm : ℚ
  webPulse : ℚ
  liquidFlow : ℚ
  baseColor : ℕ
  glowIntensity : ℚ
deriving DecidableEq, Repr

/-- The initial `control` literal of part_001 (lines 290–297). -/
def baseControlG (intensity : ℚ) : ControlG :=
  ⟨1*intensity, 1/10*intensity, 1/2*intensity, 1/10*intensity, 0x00ff00, 1⟩

/-- The mood switch of part_001 (lines 299–315). -/
def moodControlG (intensity rhythmScore : ℚ) : SoundType → ControlG
  | .ambient => { (baseControlG intensity) with
      ribbonSpeed := 2*intensity, liquidFlow := 1/5*intensity, baseColor := 0x0000ff }
  | .rhythmic => { (baseControlG intensity) with
      dotSwarm := 3/10*rhythmScore, webPulse := 1*rhythmScore, baseColor := 0x00ff00 }
  | .sharp => { (baseControlG intensity) with
      ribbonSpeed := 3*intensity, dotSwarm := 1/2*intensity, webPulse := 2*intensity,
      baseColor := 0xff0000 }
  | .chaotic => { (baseControlG intensity) with
      ribbonSpeed := 4*intensity, dotSwarm := 1*intensity, webPulse := 3*intensity,
      liquidFlow := 3/10*intensity, baseColor := 0xff00ff }
  | .sorrowful => { (baseControlG intensity) with
      ribbonSpeed := 1/2*intensity, dotSwarm := 1/20*intensity, webPulse := 1/5*intensity,
      baseColor := 0x000088 }

/-- The `if (phrase)` block of part_001 (lines 317–334): sentiment
recolors, then the keyword chain multiplies `ribbonSpeed` by 1.5, or
`webPulse` by 2, or `liquidFlow` by 1.5, possibly setting
`glowIntensity` to 2. -/
def phraseAdjust (sentScore : ℤ) (hasEthereal hasDark hasEcho : Bool)
    (c : ControlG) : ControlG :=
  let c1 := if sentScore > 0 then { c with baseColor := 0xffff00 }
    else if sentScore < 0 then { c with baseColor := 0x000088 } else c
  if hasEthereal then
    { c1 with
      ribbonSpeed := c1.ribbonSpeed * (3/2)
      glowIntensity := 2
      baseColor := 0x88ccff }
  else if hasDark then { c1 with webPulse := c1.webPulse * 2, baseColor := 0x440044 }
  else if hasEcho then { c1 with liquidFlow := c1.liquidFlow * (3/2), baseColor := 0x00aaff }
  else c1

/-- `grokShapeControl` of part_001 in full: mood switch plus the
optional phrase adjustment. -/
def grokShapeControlPhrase (intensity rhythmScore : ℚ) (st : SoundType)
    (phraseGiven : Bool) (sentScore : ℤ) (hasEthereal hasDark hasEcho : Bool) : ControlG :=
  let c := moodControlG intensity rhythmScore st
  if phraseGiven then phraseAdjust sentScore hasEthereal hasDark hasEcho c else c

/-- Non-negativity of the four speed fields plus glow, packaged. -/
def NonnegG (c : ControlG) : Prop :=
  0 ≤ c.ribbonSpeed ∧ 0 ≤ c.dotSwarm ∧ 0 ≤ c.webPulse ∧ 0 ≤ c.liquidFlow ∧
    0 ≤ c.glowIntensity

theorem countPeaksAux_eq_spec : ∀ l : List ℚ, countPeaksAux l = specPeakCount l
  | [] => rfl
  | [_] => rfl
  | [_, _] => rfl
  | a :: b :: c :: rest => by
      have ih := countPeaksAux_eq_spec (b :: c :: rest)
      simp only [countPeaksAux, specPeakCount, List.zip_cons_cons, List.tail_cons,
        List.countP_cons] at *
      rw [ih]
      by_cases h : a < b ∧ c < b ∧ 1/2 < b
      · simp [h, and_comm, and_left_comm]
        omega
      · have h' : ¬(b > a ∧ b > c ∧ b > 1/2) := by tauto
        simp [h, h']
        omega

/-- Strict local maxima cannot be adjacent, so at most every other sample
is a peak: `2 · peaks ≤ length`.  Proved by strong induction on the
length, skipping two elements past each counted peak. -/
theorem two_mul_countPeaksAux_le (n : ℕ) :
    ∀ l : List ℚ, l.length ≤ n → 2 * countPeaksAux l ≤ l.length := by
  induction n with
  | zero =>
      intro l hl
      match l with
      | [] => simp [countPeaksAux]
      | _ :: _ => simp at hl
  | succ n ih =>
      intro l hl
      match l with
      | [] => simp [countPeaksAux]
      | [_] => simp [countPeaksAux]
      | [_, _] => simp [countPeaksAux]
      | a :: b :: c :: rest =>
          simp only [List.length_cons] at hl
          by_cases hpk : b > a ∧ b > c ∧ b > 1/2
          · have hbc : ¬ c > b := not_lt.mpr (le_of_lt hpk.2.1)
            have hskip : countPeaksAux (b :: c :: rest) = countPeaksAux (c :: rest) := by
              match rest with
              | [] => rfl
              | d :: rest' =>
                  have hneg : ¬(c > b ∧ c > d ∧ c > 1/2) := fun hc => hbc hc.1
                  simp only [countPeaksAux]
                  rw [if_neg hneg]
                  omega
            have hlen : (c :: rest).length ≤ n := by
              simp only [List.length_cons]
              omega
            have hrec := ih (c :: rest) hlen
            simp only [List.length_cons] at hrec
            simp only [countPeaksAux, List.length_cons]
            rw [if_pos hpk, hskip]
            omega
          · have hlen : (b :: c :: rest).length ≤ n := by
              simp only [List.length_cons]
              omega
            have hrec := ih (b :: c :: rest) hlen
            simp only [List.length_cons] at hrec
            simp only [countPeaksAux, List.length_cons]
            rw [if_neg hpk]
            omega

theorem list_sum_le_length_mul (l : List ℕ) (m : ℕ) (h : ∀ x ∈ l, x ≤ m) :
    l.sum ≤ l.length * m := by
  induction l with
  | nil => simp
  | cons a t ih =>
      simp only [List.sum_cons, List.length_cons]
      have ha := h a (List.mem_cons_self a t)
      have ht := ih fun x hx => h x (List.mem_cons_of_mem a hx)
      calc a + t.sum ≤ m + t.length * m := Nat.add_le_add ha ht
        _ = (t.length + 1) * m := by ring

theorem intensityOf_bounds (bins : List ℕ) (hb : ∀ x ∈ bins, x ≤ 255) :
    0 ≤ intensityOf bins ∧ intensityOf bins ≤ 1 := by
  refine ⟨by unfold intensityOf; positivity, ?_⟩
  unfold intensityOf
  by_cases hlen : bins.length = 0
  · simp [hlen]
  · have h1 : (0 : ℚ) < (bins.length : ℚ) :=
      Nat.cast_pos.mpr (Nat.pos_of_ne_zero hlen)
    have hsum : (bins.sum : ℚ) ≤ (bins.length : ℚ) * 255 := by
      exact_mod_cast list_sum_le_length_mul bins 255 hb
    have hdiv : (bins.sum : ℚ) / (bins.length : ℚ) ≤ 255 := by
      rw [div_le_iff₀ h1]; linarith
    rw [div_le_one (by norm_num : (0:ℚ) < 255)]
    exact hdiv

theorem lowFreqEnergyOf_bounds (bins : List ℕ) (hb : ∀ x ∈ bins, x ≤ 255) :
    0 ≤ lowFreqEnergyOf bins ∧ lowFreqEnergyOf bins ≤ 1 := by
  refine ⟨by unfold lowFreqEnergyOf; positivity, ?_⟩
  unfold lowFreqEnergyOf
  have hsum : (bins.take 10).sum ≤ (bins.take 10).length * 255 :=
    list_sum_le_length_mul _ 255 fun x hx => hb x (List.take_subset 10 bins hx)
  have hlen : (bins.take 10).length ≤ 10 := by
    rw [List.length_take]; omega
  have : (bins.take 10).sum ≤ 2550 := le_trans hsum (by nlinarith)
  rw [div_le_one (by norm_num : (0:ℚ) < 10 * 255)]
  calc ((bins.take 10).sum : ℚ) ≤ (2550 : ℕ) := by exact_mod_cast this
    _ = 10 * 255 := by norm_num

theorem highFreqEnergyOf_bounds (bins : List ℕ) (hb : ∀ x ∈ bins, x ≤ 255) :
    0 ≤ highFreqEnergyOf bins ∧ highFreqEnergyOf bins ≤ 1 := by
  refine ⟨by unfold highFreqEnergyOf; positivity, ?_⟩
  unfold highFreqEnergyOf
  have hsum : (bins.drop (bins.length - 10)).sum ≤
      (bins.drop (bins.length - 10)).length * 255 :=
    list_sum_le_length_mul _ 255 fun x hx =>
      hb x (List.drop_subset (bins.length - 10) bins hx)
  have hlen : (bins.drop (bins.length - 10)).length ≤ 10 := by
    rw [List.length_drop]; omega
  have : (bins.drop (bins.length - 10)).sum ≤ 2550 := le_trans hsum (by nlinarith)
  rw [div_le_one (by norm_num : (0:ℚ) < 10 * 255)]
  calc ((bins.drop (bins.length - 10)).sum : ℚ) ≤ (2550 : ℕ) := by exact_mod_cast this
    _ = 10 * 255 := by norm_num

theorem detectRhythm_bounds (hist : List ℚ) :
    0 ≤ detectRhythm hist ∧ detectRhythm hist ≤ 1 := by
  unfold detectRhythm
  split_ifs with hlen
  · simp
  · push_neg at hlen
    have h10 : (10 : ℚ) ≤ (hist.length : ℚ) := by exact_mod_cast hlen
    have hpos : (0 : ℚ) < (hist.length : ℚ) / 2 := by linarith
    refine ⟨by positivity, ?_⟩
    rw [div_le_one hpos]
    have h2 := two_mul_countPeaksAux_le hist.length hist le_rfl
    have h2q : ((2 * countPeaksAux hist : ℕ) : ℚ) ≤ ((hist.length : ℕ) : ℚ) := by
      exact_mod_cast h2
    push_cast at h2q
    linarith

/-- **C1.** The classifier is a total function and follows the stated
priority order: each of the five sound types is returned exactly when its
guard holds and no earlier guard does, so exactly one branch fires for
every feature tuple. -/
theorem classifySound_priority (i l h r : ℚ) :
    (classifySound i l h r = .sharp ↔ (7/10 < h ∧ 1/2 < i)) ∧
    (classifySound i l h r = .rhythmic ↔ (¬(7/10 < h ∧ 1/2 < i) ∧ 3/5 < r)) ∧
    (classifySound i l h r = .chaotic ↔
      (¬(7/10 < h ∧ 1/2 < i) ∧ ¬(3/5 < r) ∧ (4/5 < i ∧ 1/2 < h ∧ 1/2 < l))) ∧
    (classifySound i l h r = .sorrowful ↔
      (¬(7/10 < h ∧ 1/2 < i) ∧ ¬(3/5 < r) ∧ ¬(4/5 < i ∧ 1/2 < h ∧ 1/2 < l) ∧
        (3/5 < l ∧ i < 2/5))) ∧
    (classifySound i l h r = .ambient ↔
      (¬(7/10 < h ∧ 1/2 < i) ∧ ¬(3/5 < r) ∧ ¬(4/5 < i ∧ 1/2 < h ∧ 1/2 < l) ∧
        ¬(3/5 < l ∧ i < 2/5))) := by
  unfold classifySound
  split_ifs with h1 h2 h3 h4 <;> simp_all

/-- **C2.** `detectRhythm` returns 0 on histories of fewer than 10
samples, and otherwise the number of strict local maxima above `0.5`
divided by half the history length. -/
theorem detectRhythm_spec (l : List ℚ) :
    detectRhythm l =
      if l.length < 10 then 0
      else (specPeakCount l : ℚ) / ((l.length : ℚ) / 2) := by
  unfold detectRhythm
  rw [countPeaksAux_eq_spec]

/-- **C3.** For every frequency-bin snapshot with magnitudes in 0..255
and every intensity history, the computed features `intensity`,
`lowFreqEnergy`, `highFreqEnergy` and `rhythmScore` all lie in `[0, 1]`
(the rhythm bound resting on the fact that an `n`-sample history has at
most `n/2` strict local maxima). -/
theorem audioFeatures_bounded (bins : List ℕ) (hist : List ℚ)
    (hb : ∀ x ∈ bins, x ≤ 255) :
    (0 ≤ intensityOf bins ∧ intensityOf bins ≤ 1) ∧
    (0 ≤ lowFreqEnergyOf bins ∧ lowFreqEnergyOf bins ≤ 1) ∧
    (0 ≤ highFreqEnergyOf bins ∧ highFreqEnergyOf bins ≤ 1) ∧
    (0 ≤ detectRhythm hist ∧ detectRhythm hist ≤ 1) :=
  ⟨intensityOf_bounds bins hb, lowFreqEnergyOf_bounds bins hb,
    highFreqEnergyOf_bounds bins hb, detectRhythm_bounds hist⟩

/-- Witness for C3 at a concrete 12-bin snapshot and 12-sample history. -/
theorem audioFeatures_bounded_witness :
    (∀ x ∈ [0, 17, 255, 255, 3, 0, 0, 128, 254, 1, 90, 200], x ≤ 255) ∧
    ((0 ≤ intensityOf [0, 17, 255, 255, 3, 0, 0, 128, 254, 1, 90, 200] ∧
        intensityOf [0, 17, 255, 255, 3, 0, 0, 128, 254, 1, 90, 200] ≤ 1) ∧
      (0 ≤ lowFreqEnergyOf [0, 17, 255, 255, 3, 0, 0, 128, 254, 1, 90, 200] ∧
        lowFreqEnergyOf [0, 17, 255, 255, 3, 0, 0, 128, 254, 1, 90, 200] ≤ 1) ∧
      (0 ≤ highFreqEnergyOf [0, 17, 255, 255, 3, 0, 0, 128, 254, 1, 90, 200] ∧
        highFreqEnergyOf [0, 17, 255, 255, 3, 0, 0, 128, 254, 1, 90, 200] ≤ 1) ∧
      (0 ≤ detectRhythm (List.replicate 12 (1/2 : ℚ)) ∧
        detectRhythm (List.replicate 12 (1/2 : ℚ)) ≤ 1)) :=
  ⟨by decide,
    audioFeatures_bounded [0, 17, 255, 255, 3, 0, 0, 128, 254, 1, 90, 200]
      (List.replicate 12 (1/2 : ℚ)) (by decide)⟩

/-- **C4 (counterexample).** A request body that is not well-formed JSON
makes `await request.json()` reject outside any `try`, so the handler
raises instead of returning a response: the claim "no request body,
however malformed, makes the handler raise an unhandled exception" is
false.  (JSON `null` bodies likewise throw at the destructuring.) -/
theorem postPulse_crashes_on_malformed_body :
    postPulse .throws (some "test-key") (.content "Whispers of dawn") = none := rfl

/-- **C4 (amended).** For every request body that parses to a JSON value
other than `null`, the handler returns a response (never an unhandled
exception), and every failure response carries the distinct fallback
color `#ff0000` together with a templated fallback phrase — the fixed
validation phrase, or `"Fallback: Echoes of "` followed by the validated
description — the non-failure color being `#4a90e2`. -/
theorem postPulse_no_crash_after_parse (d : Option DescVal) (k : Option String)
    (u : Upstream) :
    ∃ r : RouteResponse, postPulse (.fields d) k u = some r ∧
      (r.status ≠ 200 → r.color = "#ff0000" ∧
        (r.phrase = "Invalid input provided" ∨
          ∃ s, validDesc d = some s ∧ r.phrase = "Fallback: Echoes of " ++ s)) ∧
      (r.status = 200 → r.color = "#4a90e2") := by
  rcases d with _ | v
  · exact ⟨⟨400, "Invalid input provided", "#ff0000", 1/2,
      some "Description must be a non-empty string"⟩, rfl,
      fun _ => ⟨rfl, Or.inl rfl⟩, by simp⟩
  rcases v with s | _
  case nonString =>
    exact ⟨⟨400, "Invalid input provided", "#ff0000", 1/2,
      some "Description must be a non-empty string"⟩, rfl,
      fun _ => ⟨rfl, Or.inl rfl⟩, by simp⟩
  by_cases hs : s = ""
  · subst hs
    exact ⟨⟨400, "Invalid input provided", "#ff0000", 1/2,
      some "Description must be a non-empty string"⟩, rfl,
      fun _ => ⟨rfl, Or.inl rfl⟩, by simp⟩
  have hv : validDesc (some (.str s)) = some s := by simp [validDesc, hs]
  rcases k with _ | key
  · refine ⟨⟨500, "Fallback: Echoes of " ++ s, "#ff0000", 1/2,
      some "XAI_API_KEY is not set"⟩, ?_, fun _ => ⟨rfl, Or.inr ⟨s, hv, rfl⟩⟩, by simp⟩
    simp [postPulse, validDesc, if_neg hs]
  rcases u with m | ⟨st, stx, bt⟩ | _ | c
  · refine ⟨⟨500, "Fallback: Echoes of " ++ s, "#ff0000", 1/2, some m⟩, ?_,
      fun _ => ⟨rfl, Or.inr ⟨s, hv, rfl⟩⟩, by simp⟩
    simp [postPulse, validDesc, if_neg hs]
  · refine ⟨⟨500, "Fallback: Echoes of " ++ s, "#ff0000", 1/2,
      some ("xAI API request failed: " ++ toString st ++ " " ++ stx ++ " - " ++ bt)⟩, ?_,
      fun _ => ⟨rfl, Or.inr ⟨s, hv, rfl⟩⟩, by simp⟩
    simp [postPulse, validDesc, if_neg hs]
  · refine ⟨⟨500, "Fallback: Echoes of " ++ s, "#ff0000", 1/2,
      some "Invalid response format from xAI API"⟩, ?_,
      fun _ => ⟨rfl, Or.inr ⟨s, hv, rfl⟩⟩, by simp⟩
    simp [postPulse, validDesc, if_neg hs]
  · refine ⟨⟨200, trimStr c, "#4a90e2", 1/2, none⟩, ?_, by simp, fun _ => rfl⟩
    simp [postPulse, validDesc, if_neg hs]

/-- **C7.** With description `"forest at dawn"`, a present API key and a
successful upstream returning `"Whispers of dawn"`, the route responds
with HTTP 200, the trimmed upstream content as `phrase`, and the
`color` and `pulseRate` fields. -/
theorem postPulse_success_forest_at_dawn :
    postPulse (.fields (some (.str "forest at dawn"))) (some "test-key")
        (.content "Whispers of dawn") =
      some ⟨200, "Whispers of dawn", "#4a90e2", 1/2, none⟩ := by
  have h1 : trimStr "Whispers of dawn" = "Whispers of dawn" := by decide
  simp [postPulse, validDesc, h1]

/-- **C8.** With a valid non-empty description and no API key, the route
returns HTTP 500 with a phrase starting `"Fallback: Echoes of"` and an
error detail, and the result does not depend on the upstream oracle
(the upstream API is never contacted). -/
theorem postPulse_missing_key (s : String) (hs : s ≠ "") (u u' : Upstream) :
    postPulse (.fields (some (.str s))) none u =
      some ⟨500, "Fallback: Echoes of " ++ s, "#ff0000", 1/2,
        some "XAI_API_KEY is not set"⟩ ∧
    (∃ rest : String, "Fallback: Echoes of " ++ s = "Fallback: Echoes of " ++ rest) ∧
    postPulse (.fields (some (.str s))) none u =
      postPulse (.fields (some (.str s))) none u' := by
  refine ⟨?_, ⟨s, rfl⟩, ?_⟩
  · simp [postPulse, validDesc, if_neg hs]
  · simp [postPulse, validDesc, if_neg hs]

/-- Witness for C8 at the concrete description `"forest at dawn"`. -/
theorem postPulse_missing_key_witness :
    "forest at dawn" ≠ "" ∧
    (postPulse (.fields (some (.str "forest at dawn"))) none (.content "x") =
        some ⟨500, "Fallback: Echoes of " ++ "forest at dawn", "#ff0000", 1/2,
          some "XAI_API_KEY is not set"⟩ ∧
      (∃ rest : String, "Fallback: Echoes of " ++ "forest at dawn" =
        "Fallback: Echoes of " ++ rest) ∧
      postPulse (.fields (some (.str "forest at dawn"))) none (.content "x") =
        postPulse (.fields (some (.str "forest at dawn"))) none .badFormat) :=
  ⟨by decide, postPulse_missing_key "forest at dawn" (by decide) (.content "x") .badFormat⟩

theorem postPulse_sea_concrete :
    postPulse (.fields (some (.str "sea"))) none .badFormat =
      some ⟨500, "Fallback: Echoes of " ++ "sea", "#ff0000", 1/2,
        some "XAI_API_KEY is not set"⟩ := by
  simp [postPulse, validDesc]

/-- **C10.** Every error response of the route (status ≠ 200) carries
color `#ff0000` and pulseRate `0.5`, and when the description is a valid
non-empty string `s` (the two 500 fallback branches), the phrase is
exactly `"Fallback: Echoes of " ++ s`. -/
theorem postPulse_error_responses (d : Option DescVal) (k : Option String)
    (u : Upstream) (r : RouteResponse)
    (hr : postPulse (.fields d) k u = some r) (hst : r.status ≠ 200) :
    (r.color = "#ff0000" ∧ r.pulseRate = 1/2) ∧
    (∀ s, validDesc d = some s → r.phrase = "Fallback: Echoes of " ++ s) := by
  simp only [postPulse] at hr
  cases hd : validDesc d with
  | none =>
      rw [hd] at hr
      simp only [Option.some.injEq] at hr
      subst hr
      exact ⟨⟨rfl, rfl⟩, fun s hs => by cases hs⟩
  | some s0 =>
      rw [hd] at hr
      cases k with
      | none =>
          simp only [Option.some.injEq] at hr
          subst hr
          exact ⟨⟨rfl, rfl⟩, fun s hs => by cases hs; rfl⟩
      | some key =>
          cases u with
          | fetchReject m =>
              simp only [Option.some.injEq] at hr
              subst hr
              exact ⟨⟨rfl, rfl⟩, fun s hs => by cases hs; rfl⟩
          | httpError st stx bodyText =>
              simp only [Option.some.injEq] at hr
              subst hr
              exact ⟨⟨rfl, rfl⟩, fun s hs => by cases hs; rfl⟩
          | badFormat =>
              simp only [Option.some.injEq] at hr
              subst hr
              exact ⟨⟨rfl, rfl⟩, fun s hs => by cases hs; rfl⟩
          | content c =>
              simp only [Option.some.injEq] at hr
              subst hr
              exact absurd rfl hst

/-- Witness for C10 at the concrete missing-key 500 response. -/
theorem postPulse_error_responses_witness :
    postPulse (.fields (some (.str "sea"))) none .badFormat =
      some ⟨500, "Fallback: Echoes of " ++ "sea", "#ff0000", 1/2,
        some "XAI_API_KEY is not set"⟩ ∧
    (500 : ℕ) ≠ 200 ∧
    ((RouteResponse.color
        ⟨500, "Fallback: Echoes of " ++ "sea", "#ff0000", 1/2,
          some "XAI_API_KEY is not set"⟩ = "#ff0000" ∧
      RouteResponse.pulseRate
        ⟨500, "Fallback: Echoes of " ++ "sea", "#ff0000", 1/2,
          some "XAI_API_KEY is not set"⟩ = 1/2) ∧
      (∀ s, validDesc (some (.str "sea")) = some s →
        RouteResponse.phrase
          ⟨500, "Fallback: Echoes of " ++ "sea", "#ff0000", 1/2,
            some "XAI_API_KEY is not set"⟩ = "Fallback: Echoes of " ++ s)) :=
  ⟨postPulse_sea_concrete, by decide,
    postPulse_error_responses (some (.str "sea")) none .badFormat
      ⟨500, "Fallback: Echoes of " ++ "sea", "#ff0000", 1/2,
        some "XAI_API_KEY is not set"⟩
      postPulse_sea_concrete (by decide)⟩

/-- **C9.** In a frame where `audioData` is null or its intensity is not
positive, no geometry or color is mutated: the state is unchanged except
that time advances by `0.05`, and the frame is still rendered. -/
theorem frame_inactive (sinF cosF sqrtF : ℚ → ℚ) (piC : ℚ)
    (audioData : Option AudioData) (st : VisState)
    (h : audioData = none ∨ ∃ ad, audioData = some ad ∧ ad.intensity ≤ 0) :
    frame sinF cosF sqrtF piC audioData st =
      ({ st with time := st.time + 5/100 }, true) := by
  rcases h with h | ⟨ad, had, hi⟩
  · subst h
    rfl
  · subst had
    simp only [frame]
    rw [if_neg (not_lt.mpr hi)]

/-- Witness for C9 at `audioData = none` and a concrete state. -/
theorem frame_inactive_witness :
    ((none : Option AudioData) = none ∨
      ∃ ad, (none : Option AudioData) = some ad ∧ ad.intensity ≤ 0) ∧
    frame id id id 0 none stW = ({ stW with time := stW.time + 5/100 }, true) :=
  ⟨Or.inl rfl, frame_inactive id id id 0 none stW (Or.inl rfl)⟩

/-- With the constant-one oscillator, each frame adds exactly `1/2` to
the single web vertex's `z`: after `n` frames it sits at `z₀ + n/2`,
so the web coordinate grows without bound. -/
theorem webZ_after (n : ℕ) : ∀ (st : VisState) (z : ℚ), st.webPos = [⟨0, 0, z⟩] →
    (frameIter oneF oneF oneF 0 (some adC) n st).webPos =
      [⟨0, 0, z + (n : ℚ) * (1/2)⟩] := by
  induction n with
  | zero =>
      intro st z hz
      simp only [frameIter, Nat.cast_zero, zero_mul, add_zero]
      exact hz
  | succ n ih =>
      intro st z hz
      have hstep : (frame oneF oneF oneF 0 (some adC) st).1.webPos = [⟨0, 0, z + 1/2⟩] := by
        simp only [frame, adC, grokShapeControl]
        rw [if_pos (by norm_num : (0:ℚ) < 1)]
        simp [webUpdate, hz, webUpdateAux, oneF]
      rw [frameIter, ih _ _ hstep]
      simp only [List.cons.injEq, Vec3.mk.injEq, and_true, true_and]
      push_cast
      ring

/-- **C5 (counterexample).** Starting from a web vertex at the origin,
11 frames with an admissible oscillator move its `z` to `5.5`, outside
the `[-5, 5]` cube the dot animator clamps to: web geometry is not
confined to a fixed cube. -/
theorem web_escapes_cube :
    (frameIter oneF oneF oneF 0 (some adC) 11 stC).webPos =
      [⟨0, 0, 0 + ((11 : ℕ) : ℚ) * (1/2)⟩] ∧
    ¬ (0 + ((11 : ℕ) : ℚ) * (1/2) ≤ 5) :=
  ⟨webZ_after 11 stC 0 rfl, by norm_num⟩

theorem clampQ_bounds (v : ℚ) : -5 ≤ clampQ v (-5) 5 ∧ clampQ v (-5) 5 ≤ 5 :=
  ⟨le_max_left _ _, max_le (by norm_num) (min_le_left _ _)⟩

theorem dotUpdateAux_mem (sinF cosF : ℚ → ℚ) (t swarm : ℚ) :
    ∀ (i : ℕ) (pts : List Vec3) (p : Vec3), p ∈ dotUpdateAux sinF cosF t swarm i pts →
      (-5 ≤ p.x ∧ p.x ≤ 5) ∧ (-5 ≤ p.y ∧ p.y ≤ 5) ∧ (-5 ≤ p.z ∧ p.z ≤ 5) := by
  intro i pts
  induction pts generalizing i with
  | nil =>
      intro p hp
      simp [dotUpdateAux] at hp
  | cons q rest ih =>
      intro p hp
      simp only [dotUpdateAux, List.mem_cons] at hp
      rcases hp with rfl | hp
      · exact ⟨clampQ_bounds _, clampQ_bounds _, clampQ_bounds _⟩
      · exact ih (i+1) p hp

theorem abs_mul_two_le (f : ℚ → ℚ) (hf : ∀ x, |f x| ≤ 1) (a : ℚ) : |f a * 2| ≤ 2 := by
  rw [abs_mul]
  have h1 := hf a
  have h2 : |(2:ℚ)| = 2 := by norm_num
  rw [h2]
  nlinarith [abs_nonneg (f a)]

theorem ribbonUpdateAux_mem (sinF cosF : ℚ → ℚ) (hs : ∀ x, |sinF x| ≤ 1)
    (hc : ∀ x, |cosF x| ≤ 1) (piC t speed : ℚ) (n : ℕ) :
    ∀ (j : ℕ) (pts : List Vec3) (p : Vec3),
      p ∈ ribbonUpdateAux sinF cosF piC t speed n j pts → |p.y| ≤ 2 ∧ |p.z| ≤ 2 := by
  intro j pts
  induction pts generalizing j with
  | nil =>
      intro p hp
      simp [ribbonUpdateAux] at hp
  | cons q rest ih =>
      intro p hp
      simp only [ribbonUpdateAux, List.mem_cons] at hp
      rcases hp with rfl | hp
      · exact ⟨abs_mul_two_le sinF hs _, abs_mul_two_le cosF hc _⟩
      · exact ih (j+1) p hp

/-- **C5 (amended).** Per frame, dot coordinates are clamped into the
fixed cube `[-5, 5]³`; ribbon `y`, `z` are set to oscillator values in
`[-2, 2]` (`x` unchanged); the liquid height is bounded by the
intensity, hence by 1.  The web is the exception: its `z` accumulates an
unclamped offset (see the counterexample), so it is not confined. -/
theorem shapes_bounded_except_web (sinF cosF sqrtF : ℚ → ℚ)
    (hs : ∀ x, |sinF x| ≤ 1) (hc : ∀ x, |cosF x| ≤ 1)
    (piC t speed swarm flow intensity : ℚ) (hi : |intensity| ≤ 1) :
    (∀ pts p, p ∈ dotUpdate sinF cosF t swarm pts →
      (-5 ≤ p.x ∧ p.x ≤ 5) ∧ (-5 ≤ p.y ∧ p.y ≤ 5) ∧ (-5 ≤ p.z ∧ p.z ≤ 5)) ∧
    (∀ pts p, p ∈ ribbonUpdate sinF cosF piC t speed pts → |p.y| ≤ 2 ∧ |p.z| ≤ 2) ∧
    (∀ pts p, p ∈ liquidUpdate sinF sqrtF t flow intensity pts → |p.z| ≤ 1) := by
  refine ⟨?_, ?_, ?_⟩
  · intro pts p hp
    exact dotUpdateAux_mem sinF cosF t swarm 0 pts p hp
  · intro pts p hp
    exact ribbonUpdateAux_mem sinF cosF hs hc piC t speed pts.length 0 pts p hp
  · intro pts p hp
    simp only [liquidUpdate, List.mem_map] at hp
    obtain ⟨q, _, rfl⟩ := hp
    show |sinF (sqrtF (q.x^2 + q.y^2) * 5 - t * flow) * intensity| ≤ 1
    rw [abs_mul]
    exact mul_le_one₀ (hs _) (abs_nonneg _) hi

/-- Witness for the amended C5 at the constant-one oscillator. -/
theorem shapes_bounded_except_web_witness :
    (∀ x : ℚ, |oneF x| ≤ 1) ∧ |(1 : ℚ)| ≤ 1 ∧
    ((∀ pts p, p ∈ dotUpdate oneF oneF 0 1 pts →
      (-5 ≤ p.x ∧ p.x ≤ 5) ∧ (-5 ≤ p.y ∧ p.y ≤ 5) ∧ (-5 ≤ p.z ∧ p.z ≤ 5)) ∧
    (∀ pts p, p ∈ ribbonUpdate oneF oneF 0 0 1 pts → |p.y| ≤ 2 ∧ |p.z| ≤ 2) ∧
    (∀ pts p, p ∈ liquidUpdate oneF oneF 0 1 1 pts → |p.z| ≤ 1)) :=
  ⟨fun x => by norm_num [oneF], by norm_num,
    shapes_bounded_except_web oneF oneF oneF (fun x => by norm_num [oneF])
      (fun x => by norm_num [oneF]) 0 0 1 1 1 1 (by norm_num)⟩

theorem moodControlG_nonneg (intensity rhythmScore : ℚ) (hi : 0 ≤ intensity)
    (hr : 0 ≤ rhythmScore) (st : SoundType) :
    NonnegG (moodControlG intensity rhythmScore st) := by
  cases st <;>
    (unfold NonnegG moodControlG baseControlG
     refine ⟨?_, ?_, ?_, ?_, ?_⟩ <;> dsimp <;> linarith)

theorem phraseAdjust_nonneg (sentScore : ℤ) (hasEthereal hasDark hasEcho : Bool)
    (c : ControlG) (hc : NonnegG c) :
    NonnegG (phraseAdjust sentScore hasEthereal hasDark hasEcho c) := by
  obtain ⟨h1, h2, h3, h4, h5⟩ := hc
  unfold NonnegG phraseAdjust
  dsimp only
  split_ifs <;>
    (refine ⟨?_, ?_, ?_, ?_, ?_⟩ <;> dsimp <;> linarith)

/-- **C6.** For every sound type and all non-negative `intensity` and
`rhythmScore`, every numeric motion field is non-negative: the four
fields of the `src/app/page.tsx` mapping, and all five fields (including
`glowIntensity`) of the part_001 mapping, for every phrase flag,
sentiment score and keyword combination. -/
theorem motionParameters_nonneg (intensity rhythmScore : ℚ)
    (hi : 0 ≤ intensity) (hr : 0 ≤ rhythmScore) (st : SoundType)
    (phraseGiven : Bool) (sentScore : ℤ) (hasEthereal hasDark hasEcho : Bool) :
    (0 ≤ (grokShapeControl intensity rhythmScore st).ribbonSpeed ∧
      0 ≤ (grokShapeControl intensity rhythmScore st).dotSwarm ∧
      0 ≤ (grokShapeControl intensity rhythmScore st).webPulse ∧
      0 ≤ (grokShapeControl intensity rhythmScore st).liquidFlow) ∧
    NonnegG (grokShapeControlPhrase intensity rhythmScore st phraseGiven sentScore
      hasEthereal hasDark hasEcho) := by
  constructor
  · cases st <;>
      (unfold grokShapeControl
       refine ⟨?_, ?_, ?_, ?_⟩ <;> dsimp <;> linarith)
  · unfold grokShapeControlPhrase
    have hbase := moodControlG_nonneg intensity rhythmScore hi hr st
    cases phraseGiven
    · exact hbase
    · exact phraseAdjust_nonneg sentScore hasEthereal hasDark hasEcho _ hbase

/-- Witness for C6 at intensity `3/4`, rhythm `1/5`, sharp mood, with a
phrase carrying a negative sentiment and the dark keyword. -/
theorem motionParameters_nonneg_witness :
    (0 : ℚ) ≤ 3/4 ∧ (0 : ℚ) ≤ 1/5 ∧
    ((0 ≤ (grokShapeControl (3/4) (1/5) .sharp).ribbonSpeed ∧
      0 ≤ (grokShapeControl (3/4) (1/5) .sharp).dotSwarm ∧
      0 ≤ (grokShapeControl (3/4) (1/5) .sharp).webPulse ∧
      0 ≤ (grokShapeControl (3/4) (1/5) .sharp).liquidFlow) ∧
    NonnegG (grokShapeControlPhrase (3/4) (1/5) .sharp true (-2) false true false)) :=
  ⟨by norm_num, by norm_num,
    motionParameters_nonneg (3/4) (1/5) (by norm_num) (by norm_num) .sharp
      true (-2) false true false⟩

end Pulse
